import Mathlib

/-!
Verification of the GreenHydro hexagon-grid generation and cost-scoring
pipeline (`Scripts/create_india_hexagons.py`, `Scripts/fix_hexagons.py`,
`Scripts/calculate_india_lcoh.py`) against its specification.

Modelling conventions:
* Python floats are modelled by exact rationals `ℚ`; Python `round(x, n)`
  (round-half-to-even) is modelled by `py_round n x`.
* `np.cos` / `np.sin` applied to the six fixed hexagon angles are modelled by
  table parameters `ctab stab : ℕ → ℚ`; `np.cos(np.radians lat)` for a
  rational latitude is modelled by a function parameter `coslat : ℚ → ℚ`;
  `np.sqrt` is modelled by a function parameter `sqrtf : ℚ → ℚ` where the
  true value matters, and where only comparisons of distances against
  constant thresholds occur, `sqrt d < t` is modelled as `d < t^2`
  (equivalent because `sqrt` is monotone and both sides are nonnegative).
* `float('inf')` is modelled by the constant `float_inf`, larger than any
  distance arising in the program.
-/

namespace GreenHydro

/-- Round-half-to-even of a rational to an integer, the rounding mode of
Python's builtin `round` (used as `round(x, n)` throughout the scripts). -/
def roundHalfEven (y : ℚ) : ℤ :=
  if y - ⌊y⌋ < 1/2 then ⌊y⌋
  else if 1/2 < y - ⌊y⌋ then ⌊y⌋ + 1
  else if Even ⌊y⌋ then ⌊y⌋ else ⌊y⌋ + 1

/-- Models Python `round(x, n)` on rationals. -/
def py_round (n : ℕ) (x : ℚ) : ℚ := (roundHalfEven (x * 10 ^ n) : ℚ) / 10 ^ n

/-- Models `float('inf')` as used for the running minimum in
`calculate_transport_cost` and `calculate_infrastructure_score`. -/
def float_inf : ℚ := 10 ^ 30

/-! ### Cost Scorer: `Scripts/calculate_india_lcoh.py` -/

/-- `calculate_wind_energy_cost` (calculate_india_lcoh.py lines 68-89). -/
def calculate_wind_energy_cost (wind_potential elevation : ℚ) : ℚ :=
  let capacity_factor : ℚ :=
    if 6 ≤ wind_potential then 0.35
    else if 5 ≤ wind_potential then 0.28
    else if 4 ≤ wind_potential then 0.20
    else 0.12
  let base_cost : ℚ := 45
  let adjusted_cost := base_cost / capacity_factor
  let elevation_factor := 1 + (elevation / 1000) * 0.1
  adjusted_cost * elevation_factor

/-- `calculate_solar_energy_cost` (calculate_india_lcoh.py lines 91-109). -/
def calculate_solar_energy_cost (solar_potential : ℚ) : ℚ :=
  let capacity_factor : ℚ :=
    if 6 ≤ solar_potential then 0.22
    else if 5.5 ≤ solar_potential then 0.20
    else if 5 ≤ solar_potential then 0.18
    else 0.15
  let base_cost : ℚ := 35
  base_cost / capacity_factor

/-- `calculate_water_cost` (calculate_india_lcoh.py lines 111-118). -/
def calculate_water_cost (water_availability : String) : ℚ :=
  if water_availability = "High" then 0.5
  else if water_availability = "Medium" then 1.2
  else 2.5

/-- `calculate_infrastructure_cost` (calculate_india_lcoh.py lines 120-130). -/
def calculate_infrastructure_cost (infrastructure_score : ℚ) : ℚ :=
  if 80 ≤ infrastructure_score then 0.3
  else if 60 ≤ infrastructure_score then 0.6
  else if 40 ≤ infrastructure_score then 1.0
  else 1.8

/-- `calculate_electrolyzer_cost` (calculate_india_lcoh.py lines 132-136). -/
def calculate_electrolyzer_cost : ℚ := 1.2

/-- The five demand centers of `calculate_transport_cost`
(Mumbai, Delhi, Bangalore, Chennai, Kolkata). -/
def demand_centers : List (ℚ × ℚ) :=
  [(19.0760, 72.8777), (28.7041, 77.1025), (12.9716, 77.5946),
   (13.0827, 80.2707), (22.5726, 88.3639)]

/-- `calculate_transport_cost` (calculate_india_lcoh.py lines 138-158).
`sqrtf` models `np.sqrt`; the loop's running minimum starting from
`float('inf')` is a `foldl`. -/
def calculate_transport_cost (sqrtf : ℚ → ℚ) (lat lon : ℚ) : ℚ :=
  let min_distance := demand_centers.foldl
    (fun m c => min m (sqrtf ((lat - c.1) ^ 2 + (lon - c.2) ^ 2) * 111)) float_inf
  (min_distance / 100) * 0.15

/-- `calculate_suitability_score` (calculate_india_lcoh.py lines 160-180). -/
def calculate_suitability_score (lcoh wind_potential solar_potential : ℚ) : ℚ :=
  let lcoh_score : ℚ :=
    if lcoh ≤ 3 then 100
    else if lcoh ≤ 4 then 85
    else if lcoh ≤ 5 then 70
    else if lcoh ≤ 6 then 55
    else 40
  let renewable_score := (wind_potential / 7 + solar_potential / 6.5) * 50
  py_round 1 (lcoh_score * 0.6 + renewable_score * 0.4)

/-- The hexagon properties read by `calculate_lcoh_for_hexagon`
(calculate_india_lcoh.py lines 24-29 and 45). -/
structure HexProps where
  wind_potential : ℚ
  solar_potential : ℚ
  water_availability : String
  infrastructure_score : ℚ
  elevation : ℚ
  center_lat : ℚ
  center_lon : ℚ
deriving DecidableEq

/-- The dictionary returned by `calculate_lcoh_for_hexagon`
(calculate_india_lcoh.py lines 57-66). -/
structure LCOHResult where
  total_lcoh : ℚ
  wind_cost : ℚ
  solar_cost : ℚ
  water_cost : ℚ
  infrastructure_cost : ℚ
  electrolyzer_cost : ℚ
  transport_cost : ℚ
  suitability_score : ℚ
deriving DecidableEq

/-- `calculate_lcoh_for_hexagon` (calculate_india_lcoh.py lines 20-66). -/
def calculate_lcoh_for_hexagon (sqrtf : ℚ → ℚ) (props : HexProps) : LCOHResult :=
  let wind_cost := calculate_wind_energy_cost props.wind_potential props.elevation
  let solar_cost := calculate_solar_energy_cost props.solar_potential
  let water_cost := calculate_water_cost props.water_availability
  let infrastructure_cost := calculate_infrastructure_cost props.infrastructure_score
  let electrolyzer_cost := calculate_electrolyzer_cost
  let transport_cost := calculate_transport_cost sqrtf props.center_lat props.center_lon
  let total_lcoh :=
    wind_cost * 0.4 + solar_cost * 0.6 + water_cost + infrastructure_cost +
      electrolyzer_cost + transport_cost
  { total_lcoh := py_round 2 total_lcoh
    wind_cost := py_round 2 wind_cost
    solar_cost := py_round 2 solar_cost
    water_cost := py_round 2 water_cost
    infrastructure_cost := py_round 2 infrastructure_cost
    electrolyzer_cost := py_round 2 electrolyzer_cost
    transport_cost := py_round 2 transport_cost
    suitability_score :=
      calculate_suitability_score total_lcoh props.wind_potential props.solar_potential }

/-! ### Grid Generator: `Scripts/create_india_hexagons.py` -/

/-- `create_hexagon` (create_india_hexagons.py lines 82-98).  The six angles
are the fixed values `linspace(0, 2*pi, 7)[:-1]`; `ctab k`/`stab k` model
`np.cos`/`np.sin` at the `k`-th angle and `coslat` models
`np.cos(np.radians lat)`.  Each vertex is appended as `[new_lon, new_lat]`. -/
def create_hexagon (ctab stab : ℕ → ℚ) (coslat : ℚ → ℚ) (lat lon radius_deg : ℚ) :
    List (ℚ × ℚ) :=
  (List.range 6).map fun k =>
    (lon + radius_deg * stab k / coslat lat, lat + radius_deg * ctab k)

/-- `calculate_wind_potential` (create_india_hexagons.py lines 100-125). -/
def calculate_wind_potential (lat lon : ℚ) : ℚ :=
  let coastal_distance :=
    min (min (min (min |lat - 8| |lat - 22|) |lat - 12|) |lon - 72|) |lon - 80|
  let base_wind : ℚ :=
    if coastal_distance < 2 then 6.5
    else if coastal_distance < 5 then 5.5
    else 4
  let monsoon_factor : ℚ := if 15 < lat ∧ lat < 25 then 1.2 else 1
  let terrain_factor : ℚ := if 20 < lat ∧ lat < 30 then 1.1 else 1
  py_round 2 (base_wind * monsoon_factor * terrain_factor)

/-- `calculate_solar_potential` (create_india_hexagons.py lines 127-146).
The source compares `sqrt((lat-28)^2 + (lon-75)^2)` against 5, 10 and 8;
we compare the squared distance against 25, 100 and 64, which is equivalent
since `np.sqrt` is monotone and the thresholds are nonnegative. -/
def calculate_solar_potential (lat lon : ℚ) : ℚ :=
  let northwest_distance_sq := (lat - 28) ^ 2 + (lon - 75) ^ 2
  let base_solar : ℚ :=
    if northwest_distance_sq < 25 then 6.2
    else if northwest_distance_sq < 100 then 5.8
    else 5.2
  let lat_factor := 1 + (25 - lat) * 0.02
  let climate_factor : ℚ := if northwest_distance_sq < 64 then 1.1 else 1
  py_round 2 (base_solar * lat_factor * climate_factor)

/-- `calculate_water_availability` (create_india_hexagons.py lines 148-160). -/
def calculate_water_availability (lat lon : ℚ) : String :=
  if 20 < lat ∧ lat < 30 ∧ 70 < lon ∧ lon < 85 then "High"
  else if 10 < lat ∧ lat < 20 ∧ 70 < lon ∧ lon < 80 then "High"
  else if 20 < lat ∧ lat < 30 ∧ 85 < lon ∧ lon < 95 then "High"
  else if 15 < lat ∧ lat < 25 ∧ 75 < lon ∧ lon < 85 then "Medium"
  else "Low"

/-- The nine reference cities of `calculate_infrastructure_score`
(create_india_hexagons.py lines 165-175). -/
def major_cities : List (ℚ × ℚ) :=
  [(19.0760, 72.8777), (28.7041, 77.1025), (12.9716, 77.5946), (13.0827, 80.2707),
   (22.5726, 88.3639), (17.3850, 78.4867), (23.0225, 72.5714), (26.8467, 80.9462),
   (25.2048, 55.2708)]

/-- `calculate_infrastructure_score` (create_india_hexagons.py lines 162-194).
The running minimum of `sqrt` distances compared against 1, 3, 8, 15 is
modelled as the running minimum of squared distances compared against
1, 9, 64, 225 (equivalent by monotonicity of `np.sqrt`). -/
def calculate_infrastructure_score (lat lon : ℚ) : ℚ :=
  let min_distance_sq := major_cities.foldl
    (fun m c => min m ((lat - c.1) ^ 2 + (lon - c.2) ^ 2)) float_inf
  if min_distance_sq < 1 then 90
  else if min_distance_sq < 9 then 75
  else if min_distance_sq < 64 then 60
  else if min_distance_sq < 225 then 40
  else 20

/-- `get_india_region` (create_india_hexagons.py lines 196-209). -/
def get_india_region (lat _lon : ℚ) : String :=
  if 30 < lat then "Northern Mountains"
  else if 25 < lat then "Northern Plains"
  else if 20 < lat then "Central India"
  else if 15 < lat then "Southern Plateau"
  else if 10 < lat then "Southern Coast"
  else "Islands"

/-- `get_climate_zone` (create_india_hexagons.py lines 211-222). -/
def get_climate_zone (lat lon : ℚ) : String :=
  if 25 < lat ∧ lon < 80 then "Desert"
  else if 20 < lat ∧ lat < 25 then "Tropical Savanna"
  else if lat < 20 then "Tropical Monsoon"
  else if 25 < lat ∧ 85 < lon then "Subtropical Humid"
  else "Temperate"

/-- `get_elevation_estimate` (create_india_hexagons.py lines 224-233). -/
def get_elevation_estimate (lat lon : ℚ) : ℚ :=
  if 30 < lat then 3000
  else if 25 < lat ∧ lon < 75 then 200
  else if lat < 20 then 500
  else 100

/-- The five urban centers of `get_population_density`
(create_india_hexagons.py lines 238-244). -/
def urban_centers : List (ℚ × ℚ) :=
  [(19.0760, 72.8777), (28.7041, 77.1025), (12.9716, 77.5946),
   (13.0827, 80.2707), (22.5726, 88.3639)]

/-- `get_population_density` (create_india_hexagons.py lines 235-256);
`sqrt d < 0.5` modelled as `d < 1/4`. -/
def get_population_density (lat lon : ℚ) : String :=
  if urban_centers.any (fun c => decide ((lat - c.1) ^ 2 + (lon - c.2) ^ 2 < 1/4)) then
    "Very High"
  else if 20 < lat ∧ lat < 30 ∧ 70 < lon ∧ lon < 85 then "High"
  else if lat < 20 then "Medium"
  else "Low"

/-- Number of elements produced by `np.arange(start, stop, step)` for a
positive step: `ceil((stop - start) / step)`. -/
def arange_len (start stop step : ℚ) : ℕ := (⌈(stop - start) / step⌉).toNat

/-- Models `np.arange(start, stop, step)`. -/
def arange (start stop step : ℚ) : List ℚ :=
  (List.range (arange_len start stop step)).map fun (k : ℕ) => start + (k : ℚ) * step

/-- Sequential numbering of a list starting at `n`, modelling the `hex_id`
counter that increments once per appended cell. -/
def numberFrom (n : ℕ) : List α → List (ℕ × α)
  | [] => []
  | a :: as => (n, a) :: numberFrom (n + 1) as

/-- One GeoJSON feature produced by `create_india_hexagons`
(create_india_hexagons.py lines 55-74): the `properties` dict plus the
polygon boundary `hex_coords`. -/
structure Hexagon where
  hex_id : ℕ
  center_lat : ℚ
  center_lon : ℚ
  wind_potential : ℚ
  solar_potential : ℚ
  water_availability : String
  infrastructure_score : ℚ
  region : String
  climate_zone : String
  elevation : ℚ
  population_density : String
  boundary : List (ℚ × ℚ)
deriving DecidableEq

/-- The cell built for one grid candidate in the loop body of
`create_india_hexagons` (create_india_hexagons.py lines 40-77). -/
def mkHexagon (ctab stab : ℕ → ℚ) (coslat : ℚ → ℚ) (hex_id : ℕ)
    (lat lon lat_step : ℚ) : Hexagon :=
  { hex_id := hex_id
    center_lat := lat
    center_lon := lon
    wind_potential := calculate_wind_potential lat lon
    solar_potential := calculate_solar_potential lat lon
    water_availability := calculate_water_availability lat lon
    infrastructure_score := calculate_infrastructure_score lat lon
    region := get_india_region lat lon
    climate_zone := get_climate_zone lat lon
    elevation := get_elevation_estimate lat lon
    population_density := get_population_density lat lon
    boundary := create_hexagon ctab stab coslat lat lon (lat_step / 2) }

/-- Latitude step of `create_india_hexagons`: `resolution_km / 111.0`. -/
def india_lat_step (resolution_km : ℚ) : ℚ := resolution_km / 111

/-- Longitude step of `create_india_hexagons`:
`resolution_km / (111.0 * cos(radians((lat_min + lat_max) / 2)))` with the
hardcoded India bounds 6.0-37.0. -/
def india_lon_step (coslat : ℚ → ℚ) (resolution_km : ℚ) : ℚ :=
  resolution_km / (111 * coslat ((6 + 37) / 2))

/-- The latitude grid `np.arange(lat_min, lat_max + lat_step, lat_step)`
with the hardcoded bounds 6.0-37.0. -/
def india_lats (resolution_km : ℚ) : List ℚ :=
  arange 6 (37 + india_lat_step resolution_km) (india_lat_step resolution_km)

/-- The longitude grid `np.arange(lon_min, lon_max + lon_step, lon_step)`
with the hardcoded bounds 68.0-97.0. -/
def india_lons (coslat : ℚ → ℚ) (resolution_km : ℚ) : List ℚ :=
  arange 68 (97 + india_lon_step coslat resolution_km)
    (india_lon_step coslat resolution_km)

/-- The row-major enumeration of grid candidates (latitude outer loop,
longitude inner loop) of `create_india_hexagons`. -/
def india_candidates (coslat : ℚ → ℚ) (resolution_km : ℚ) : List (ℚ × ℚ) :=
  (india_lats resolution_km).flatMap fun lat =>
    (india_lons coslat resolution_km).map fun lon => (lat, lon)

/-- `create_india_hexagons` (create_india_hexagons.py lines 15-80): every
grid candidate yields a cell, `hex_id` incrementing once per cell. -/
def create_india_hexagons (ctab stab : ℕ → ℚ) (coslat : ℚ → ℚ)
    (resolution_km : ℚ) : List Hexagon :=
  (numberFrom 0 (india_candidates coslat resolution_km)).map fun kp =>
    mkHexagon ctab stab coslat kp.1 kp.2.1 kp.2.2 (india_lat_step resolution_km)

/-! ### Grid Generator: `Scripts/fix_hexagons.py` -/

/-- The six raw vertices built in `create_valid_hexagons`
(fix_hexagons.py lines 29-34); `ctab i`/`stab i` model
`np.cos`/`np.sin` of `np.radians(i * 60)`. -/
def fix_hex_raw (ctab stab : ℕ → ℚ) (lat lon hex_size : ℚ) : List (ℚ × ℚ) :=
  (List.range 6).map fun i =>
    (lon + hex_size * 0.5 * ctab i, lat + hex_size * 0.5 * stab i)

/-- The closing step of `create_valid_hexagons` (fix_hexagons.py lines 36-38):
`if hex_coords[0] != hex_coords[-1]: hex_coords.append(hex_coords[0])`. -/
def closeRing (l : List (ℚ × ℚ)) : List (ℚ × ℚ) :=
  if l.head? = l.getLast? then l else l ++ l.head?.toList

/-- The full (closed) coordinate ring built for one candidate in
`create_valid_hexagons`. -/
def fix_hex_coords (ctab stab : ℕ → ℚ) (lat lon hex_size : ℚ) : List (ℚ × ℚ) :=
  closeRing (fix_hex_raw ctab stab lat lon hex_size)

/-- One GeoJSON feature produced by `create_valid_hexagons`
(fix_hexagons.py lines 44-56). -/
structure FixFeature where
  fid : String
  lat : ℚ
  lon : ℚ
  hex_size : ℚ
  coordinates : List (ℚ × ℚ)
deriving DecidableEq

/-- The grid candidates of `create_valid_hexagons` (fix_hexagons.py
lines 26-27): `np.arange(6, 37, 0.5*0.866)` by `np.arange(68, 97, 0.5)`. -/
def fix_candidates : List (ℚ × ℚ) :=
  (arange 6 37 (0.5 * 0.866)).flatMap fun lat =>
    (arange 68 97 0.5).map fun lon => (lat, lon)

/-- Loop body and accumulator of `create_valid_hexagons`
(fix_hexagons.py lines 26-60), generalized over the candidate list.
`isValid` models the shapely check `Polygon(hex_coords).is_valid`
(returning `false` also when polygon construction raises, which the
source catches and skips).  The accumulator carries the feature list and
the `hex_id` counter, which increments only when a feature is kept. -/
def create_valid_hexagons_from (cands : List (ℚ × ℚ))
    (isValid : List (ℚ × ℚ) → Bool) (ctab stab : ℕ → ℚ) : List FixFeature :=
  (cands.foldl
    (fun (acc : List FixFeature × ℕ) p =>
      let hex_coords := fix_hex_coords ctab stab p.1 p.2 0.5
      if isValid hex_coords then
        (acc.1 ++ [{ fid := "hex_" ++ toString acc.2, lat := p.1, lon := p.2,
                     hex_size := 0.5, coordinates := hex_coords }], acc.2 + 1)
      else acc)
    ([], 0)).1

/-- `create_valid_hexagons` (fix_hexagons.py lines 12-65). -/
def create_valid_hexagons (isValid : List (ℚ × ℚ) → Bool)
    (ctab stab : ℕ → ℚ) : List FixFeature :=
  create_valid_hexagons_from fix_candidates isValid ctab stab

/-- Pipeline glue: the scorer (`calculate_lcoh_for_hexagon`,
calculate_india_lcoh.py lines 22-29 and 45) reads exactly these properties
from each generated hexagon feature. -/
def hex_props (h : Hexagon) : HexProps :=
  { wind_potential := h.wind_potential
    solar_potential := h.solar_potential
    water_availability := h.water_availability
    infrastructure_score := h.infrastructure_score
    elevation := h.elevation
    center_lat := h.center_lat
    center_lon := h.center_lon }

/-- Rational approximations of `np.cos(np.radians(60 * i))` (and of the
`linspace` hexagon angles `i * 60` degrees), used to instantiate the trig
table parameters at concrete inputs. -/
def ctab0 : ℕ → ℚ := fun i => [1, 1/2, -1/2, -1, -1/2, 1/2].getD i 1

/-- Rational approximations of `np.sin(np.radians(60 * i))`. -/
def stab0 : ℕ → ℚ := fun i => [0, 433/500, 433/500, 0, -433/500, -433/500].getD i 0

/-- Concrete stand-in for `np.cos(np.radians lat)` (a positive constant,
close to `cos(radians 21.5)`). -/
def coslat0 : ℚ → ℚ := fun _ => 93/100

/-- Concrete stand-in for `np.sqrt` in witnesses: the zero function (only
used at inputs where the true square root is zero or where only
nonnegativity matters). -/
def sqrt0 : ℚ → ℚ := fun _ => 0

/-- Modelled from the spec's wording for C8: the capacity factor selected by
piecewise thresholds on wind_potential, to be compared against the factor
inside `calculate_wind_energy_cost`. -/
def wind_capacity_factor_spec (wind_potential : ℚ) : ℚ :=
  if 6 ≤ wind_potential then 0.35
  else if 5 ≤ wind_potential then 0.28
  else if 4 ≤ wind_potential then 0.20
  else 0.12

/-- The properties of the cell used as the C1 counterexample input: a cell
at Mumbai's coordinates with `wind_potential = 4.0`, `solar_potential = 5.0`,
abundant water, `infrastructure_score = 80` and zero elevation. -/
def c1_props : HexProps :=
  { wind_potential := 4, solar_potential := 5, water_availability := "High",
    infrastructure_score := 80, elevation := 0,
    center_lat := 19.0760, center_lon := 72.8777 }

/-- The scored record for the C1 counterexample cell (`np.sqrt` modelled by
`sqrt0`, exact here because the minimal distance is 0). -/
def c1_result : LCOHResult := calculate_lcoh_for_hexagon sqrt0 c1_props

/-- Degenerate trig-table stand-in (constant 1) used to exhibit a
zero-area hexagon: with it every computed vertex coincides. -/
def ctab1 : ℕ → ℚ := fun _ => 1

/-- Degenerate trig-table stand-in (constant 1). -/
def stab1 : ℕ → ℚ := fun _ => 1

/-- Degenerate `cos(radians lat)` stand-in (constant 1). -/
def coslat1 : ℚ → ℚ := fun _ => 1

/-- A trivially-true validity predicate used to instantiate the shapely
`is_valid` parameter in witnesses. -/
def c4_valid : List (ℚ × ℚ) → Bool := fun _ => true

/-- The single feature produced by the `create_valid_hexagons` loop body on
the candidate list `[(6, 68)]` with `c4_valid`. -/
def c4_feature : FixFeature :=
  { fid := "hex_" ++ toString (0 : ℕ), lat := 6, lon := 68, hex_size := 0.5,
    coordinates := fix_hex_coords ctab0 stab0 6 68 0.5 }

/-! ### Rounding lemmas -/

theorem roundHalfEven_ge (y : ℚ) : ⌊y⌋ ≤ roundHalfEven y := by
  unfold roundHalfEven
  split_ifs <;> omega

theorem roundHalfEven_le (y : ℚ) : roundHalfEven y ≤ ⌊y⌋ + 1 := by
  unfold roundHalfEven
  split_ifs <;> omega

theorem roundHalfEven_lower (y : ℚ) : y - 1/2 ≤ (roundHalfEven y : ℚ) := by
  have h1 : (⌊y⌋ : ℚ) ≤ y := Int.floor_le y
  have h2 : y < ⌊y⌋ + 1 := Int.lt_floor_add_one y
  unfold roundHalfEven
  split_ifs with ha hb hc <;> push_cast <;> linarith

theorem roundHalfEven_upper (y : ℚ) : (roundHalfEven y : ℚ) ≤ y + 1/2 := by
  have h1 : (⌊y⌋ : ℚ) ≤ y := Int.floor_le y
  have h2 : y < ⌊y⌋ + 1 := Int.lt_floor_add_one y
  unfold roundHalfEven
  split_ifs with ha hb hc <;> push_cast <;> linarith

theorem roundHalfEven_mono {a b : ℚ} (h : a ≤ b) :
    roundHalfEven a ≤ roundHalfEven b := by
  rcases lt_or_eq_of_le (Int.floor_mono h) with hlt | heq
  · have g1 := roundHalfEven_le a
    have g2 := roundHalfEven_ge b
    omega
  · unfold roundHalfEven
    rw [← heq]
    have hr : a - (⌊a⌋ : ℚ) ≤ b - (⌊a⌋ : ℚ) := by linarith
    split_ifs <;> first | omega | (exfalso; linarith)

theorem py_round_lower (n : ℕ) (x : ℚ) : x - 1 / (2 * 10 ^ n) ≤ py_round n x := by
  have h10 : (0:ℚ) < 10 ^ n := by positivity
  have h := roundHalfEven_lower (x * 10 ^ n)
  unfold py_round
  rw [le_div_iff h10]
  have hx : (x - 1 / (2 * 10 ^ n)) * 10 ^ n = x * 10 ^ n - 1/2 := by
    field_simp
    ring
  rw [hx]
  exact h

theorem py_round_upper (n : ℕ) (x : ℚ) : py_round n x ≤ x + 1 / (2 * 10 ^ n) := by
  have h10 : (0:ℚ) < 10 ^ n := by positivity
  have h := roundHalfEven_upper (x * 10 ^ n)
  unfold py_round
  rw [div_le_iff h10]
  have hx : (x + 1 / (2 * 10 ^ n)) * 10 ^ n = x * 10 ^ n + 1/2 := by
    field_simp
    ring
  rw [hx]
  exact h

theorem py_round_mono (n : ℕ) {a b : ℚ} (h : a ≤ b) : py_round n a ≤ py_round n b := by
  have h10 : (0:ℚ) < 10 ^ n := by positivity
  have key : (roundHalfEven (a * 10 ^ n) : ℚ) ≤ (roundHalfEven (b * 10 ^ n) : ℚ) := by
    exact_mod_cast roundHalfEven_mono (mul_le_mul_of_nonneg_right h (le_of_lt h10))
  unfold py_round
  exact (div_le_div_right h10).mpr key

theorem py_round_eval_lo (n : ℕ) (x : ℚ) (z : ℤ) (h1 : (z : ℚ) ≤ x * 10 ^ n)
    (h2 : x * 10 ^ n < z + 1/2) : py_round n x = (z : ℚ) / 10 ^ n := by
  have hf : ⌊x * 10 ^ n⌋ = z := Int.floor_eq_iff.mpr ⟨h1, by push_cast; linarith⟩
  unfold py_round roundHalfEven
  rw [hf, if_pos (by push_cast; linarith)]

theorem py_round_eval_hi (n : ℕ) (x : ℚ) (z : ℤ) (h1 : (z : ℚ) + 1/2 < x * 10 ^ n)
    (h2 : x * 10 ^ n < z + 1) : py_round n x = ((z : ℚ) + 1) / 10 ^ n := by
  have hf : ⌊x * 10 ^ n⌋ = z := Int.floor_eq_iff.mpr ⟨by linarith, by push_cast; linarith⟩
  unfold py_round roundHalfEven
  rw [hf, if_neg (by push_cast; linarith), if_pos (by push_cast; linarith)]
  push_cast
  ring

theorem py_round2_bounds (x lo hi : ℚ) (h1 : lo + 1/200 ≤ x) (h2 : x ≤ hi - 1/200) :
    lo ≤ py_round 2 x ∧ py_round 2 x ≤ hi := by
  have ha := py_round_lower 2 x
  have hb := py_round_upper 2 x
  norm_num at ha hb
  constructor <;> linarith

theorem py_round1_bounds (x lo hi : ℚ) (h1 : lo + 1/20 ≤ x) (h2 : x ≤ hi - 1/20) :
    lo ≤ py_round 1 x ∧ py_round 1 x ≤ hi := by
  have ha := py_round_lower 1 x
  have hb := py_round_upper 1 x
  norm_num at ha hb
  constructor <;> linarith

attribute [irreducible] roundHalfEven py_round

/-! ### Claims about the Cost Scorer -/

/-- C7: holding the renewable inputs fixed, decreasing `total_lcoh` never
decreases `suitability_score`: for `lcoh1 ≤ lcoh2`,
`suitability_score(lcoh1) ≥ suitability_score(lcoh2)`. -/
theorem C7_suitability_monotone (lcoh1 lcoh2 w s : ℚ) (h : lcoh1 ≤ lcoh2) :
    calculate_suitability_score lcoh2 w s ≤ calculate_suitability_score lcoh1 w s := by
  unfold calculate_suitability_score
  apply py_round_mono
  apply add_le_add_right
  apply mul_le_mul_of_nonneg_right _ (by norm_num : (0:ℚ) ≤ 0.6)
  split_ifs <;> linarith

/-- C7 witness: at `lcoh1 = 3 ≤ lcoh2 = 7` with fixed renewables. -/
theorem C7_witness : calculate_suitability_score 7 4 5 ≤ calculate_suitability_score 3 4 5 :=
  C7_suitability_monotone 3 7 4 5 (by norm_num)

/-- C8: `wind_cost` equals `45.0` divided by the capacity factor selected by
the piecewise thresholds on `wind_potential`, scaled by
`1.0 + (elevation/1000.0)*0.1`; at `wind_potential = 6, elevation = 0` it is
`45/0.35 ≈ 128.57`. -/
theorem C8_wind_cost_formula :
    (∀ w e : ℚ, calculate_wind_energy_cost w e =
      45 / wind_capacity_factor_spec w * (1 + e / 1000 * 0.1)) ∧
    calculate_wind_energy_cost 6 0 = 45 / 0.35 ∧
    |45 / (0.35 : ℚ) - 128.57| < 0.01 := by
  refine ⟨fun _ _ => rfl, by norm_num [calculate_wind_energy_cost], ?_⟩
  rw [show (45 : ℚ) / 0.35 - 128.57 = 1/700 by norm_num,
    abs_of_pos (by norm_num)]
  norm_num

/-- C10: `calculate_water_cost` is total on strings, returns one of
{0.5, 1.2, 2.5}, returns 0.5 exactly on "High", 1.2 exactly on "Medium",
and 2.5 on every other string. -/
theorem C10_water_cost_total (s : String) :
    (calculate_water_cost s = 0.5 ∨ calculate_water_cost s = 1.2 ∨
      calculate_water_cost s = 2.5) ∧
    (calculate_water_cost s = 0.5 ↔ s = "High") ∧
    (calculate_water_cost s = 1.2 ↔ s = "Medium") ∧
    (s ≠ "High" → s ≠ "Medium" → calculate_water_cost s = 2.5) := by
  unfold calculate_water_cost
  split_ifs with h1 h2
  · subst h1
    exact ⟨Or.inl rfl, by simp,
      iff_of_false (by norm_num) (by simp), fun h _ => absurd rfl h⟩
  · subst h2
    exact ⟨Or.inr (Or.inl rfl), iff_of_false (by norm_num) (by simp),
      by simp, fun _ h => absurd rfl h⟩
  · exact ⟨Or.inr (Or.inr rfl),
      ⟨fun h => absurd h (by norm_num), fun h => absurd h h1⟩,
      ⟨fun h => absurd h (by norm_num), fun h => absurd h h2⟩,
      fun _ _ => rfl⟩

/-- C10 witness: an unknown category string maps to 2.5. -/
theorem C10_witness : calculate_water_cost "Low" = 2.5 :=
  (C10_water_cost_total "Low").2.2.2 (by simp) (by simp)

/-- C1 counterexample: for the concrete cell `c1_props` the stored
`total_lcoh` (208.67) differs from the weighted sum of the six stored
(rounded) components (208.664) by 0.006 > 1e-9, so the claimed 1e-9
recomputability from the stored components fails. -/
theorem C1_counterexample :
    1/1000000000 <
      |c1_result.total_lcoh -
        (0.4 * c1_result.wind_cost + 0.6 * c1_result.solar_cost +
          c1_result.water_cost + c1_result.infrastructure_cost +
          c1_result.electrolyzer_cost + c1_result.transport_cost)| := by
  have h_wind : calculate_wind_energy_cost (4 : ℚ) 0 = 225 := by
    norm_num [calculate_wind_energy_cost]
  have h_solar : calculate_solar_energy_cost (5 : ℚ) = 1750/9 := by
    norm_num [calculate_solar_energy_cost]
  have h_water : calculate_water_cost "High" = 0.5 := by
    simp [calculate_water_cost]
  have h_infra : calculate_infrastructure_cost (80 : ℚ) = 0.3 := by
    norm_num [calculate_infrastructure_cost]
  have h_trans : calculate_transport_cost sqrt0 19.0760 72.8777 = 0 := by
    norm_num [calculate_transport_cost, demand_centers, sqrt0, float_inf, min_def]
  have hT : c1_result.total_lcoh = py_round 2 (626/3) := by
    simp only [c1_result, calculate_lcoh_for_hexagon, c1_props, h_wind, h_solar,
      h_water, h_infra, h_trans, calculate_electrolyzer_cost]
    norm_num
  have hW : c1_result.wind_cost = py_round 2 225 := by
    simp only [c1_result, calculate_lcoh_for_hexagon, c1_props, h_wind]
  have hS : c1_result.solar_cost = py_round 2 (1750/9) := by
    simp only [c1_result, calculate_lcoh_for_hexagon, c1_props, h_solar]
  have hWa : c1_result.water_cost = py_round 2 0.5 := by
    simp only [c1_result, calculate_lcoh_for_hexagon, c1_props, h_water]
  have hI : c1_result.infrastructure_cost = py_round 2 0.3 := by
    simp only [c1_result, calculate_lcoh_for_hexagon, c1_props, h_infra]
  have hE : c1_result.electrolyzer_cost = py_round 2 1.2 := by
    simp only [c1_result, calculate_lcoh_for_hexagon, c1_props, calculate_electrolyzer_cost]
  have hTr : c1_result.transport_cost = py_round 2 0 := by
    simp only [c1_result, calculate_lcoh_for_hexagon, c1_props, h_trans]
  rw [hT, hW, hS, hWa, hI, hE, hTr,
    show py_round 2 (626/3 : ℚ) = ((20866 : ℚ) + 1) / 10 ^ 2 from
      py_round_eval_hi 2 (626/3) 20866 (by norm_num) (by norm_num),
    show py_round 2 (225 : ℚ) = (22500 : ℚ) / 10 ^ 2 from
      py_round_eval_lo 2 225 22500 (by norm_num) (by norm_num),
    show py_round 2 (1750/9 : ℚ) = (19444 : ℚ) / 10 ^ 2 from
      py_round_eval_lo 2 (1750/9) 19444 (by norm_num) (by norm_num),
    show py_round 2 (0.5 : ℚ) = (50 : ℚ) / 10 ^ 2 from
      py_round_eval_lo 2 0.5 50 (by norm_num) (by norm_num),
    show py_round 2 (0.3 : ℚ) = (30 : ℚ) / 10 ^ 2 from
      py_round_eval_lo 2 0.3 30 (by norm_num) (by norm_num),
    show py_round 2 (1.2 : ℚ) = (120 : ℚ) / 10 ^ 2 from
      py_round_eval_lo 2 1.2 120 (by norm_num) (by norm_num),
    show py_round 2 (0 : ℚ) = (0 : ℚ) / 10 ^ 2 from
      py_round_eval_lo 2 0 0 (by norm_num) (by norm_num)]
  rw [show ((20866 : ℚ) + 1) / 10 ^ 2 -
      (0.4 * ((22500 : ℚ) / 10 ^ 2) + 0.6 * ((19444 : ℚ) / 10 ^ 2) +
        (50 : ℚ) / 10 ^ 2 + (30 : ℚ) / 10 ^ 2 + (120 : ℚ) / 10 ^ 2 +
        (0 : ℚ) / 10 ^ 2) = 3/500 by norm_num,
    abs_of_pos (by norm_num)]
  norm_num

/-- C1 (amended): the stored `total_lcoh` equals the weighted sum
`0.4*wind + 0.6*solar + water + infrastructure + electrolyzer + transport`
of the six UNROUNDED component costs, rounded to 2 decimals; from the six
stored (independently rounded) components it is recomputable only to
tolerance 0.03, not 1e-9. -/
theorem C1_total_lcoh_weighted_sum (sqrtf : ℚ → ℚ) (p : HexProps) :
    (calculate_lcoh_for_hexagon sqrtf p).total_lcoh =
      py_round 2 (0.4 * calculate_wind_energy_cost p.wind_potential p.elevation +
        0.6 * calculate_solar_energy_cost p.solar_potential +
        calculate_water_cost p.water_availability +
        calculate_infrastructure_cost p.infrastructure_score +
        calculate_electrolyzer_cost +
        calculate_transport_cost sqrtf p.center_lat p.center_lon) ∧
    |(calculate_lcoh_for_hexagon sqrtf p).total_lcoh -
      (0.4 * (calculate_lcoh_for_hexagon sqrtf p).wind_cost +
        0.6 * (calculate_lcoh_for_hexagon sqrtf p).solar_cost +
        (calculate_lcoh_for_hexagon sqrtf p).water_cost +
        (calculate_lcoh_for_hexagon sqrtf p).infrastructure_cost +
        (calculate_lcoh_for_hexagon sqrtf p).electrolyzer_cost +
        (calculate_lcoh_for_hexagon sqrtf p).transport_cost)| ≤ 3/100 := by
  set a := calculate_wind_energy_cost p.wind_potential p.elevation with ha
  set b := calculate_solar_energy_cost p.solar_potential with hb
  set c := calculate_water_cost p.water_availability with hc
  set d := calculate_infrastructure_cost p.infrastructure_score with hd
  set e := calculate_electrolyzer_cost with he
  set f := calculate_transport_cost sqrtf p.center_lat p.center_lon with hf
  have hrec : calculate_lcoh_for_hexagon sqrtf p =
      { total_lcoh := py_round 2 (a * 0.4 + b * 0.6 + c + d + e + f)
        wind_cost := py_round 2 a
        solar_cost := py_round 2 b
        water_cost := py_round 2 c
        infrastructure_cost := py_round 2 d
        electrolyzer_cost := py_round 2 e
        transport_cost := py_round 2 f
        suitability_score := calculate_suitability_score
          (a * 0.4 + b * 0.6 + c + d + e + f) p.wind_potential p.solar_potential } := rfl
  rw [hrec]
  constructor
  · show py_round 2 (a * 0.4 + b * 0.6 + c + d + e + f) =
      py_round 2 (0.4 * a + 0.6 * b + c + d + e + f)
    congr 1
    ring
  · show |py_round 2 (a * 0.4 + b * 0.6 + c + d + e + f) -
      (0.4 * py_round 2 a + 0.6 * py_round 2 b + py_round 2 c +
        py_round 2 d + py_round 2 e + py_round 2 f)| ≤ 3/100
    have hT1 := py_round_lower 2 (a * 0.4 + b * 0.6 + c + d + e + f)
    have hT2 := py_round_upper 2 (a * 0.4 + b * 0.6 + c + d + e + f)
    have ha1 := py_round_lower 2 a
    have ha2 := py_round_upper 2 a
    have hb1 := py_round_lower 2 b
    have hb2 := py_round_upper 2 b
    have hc1 := py_round_lower 2 c
    have hc2 := py_round_upper 2 c
    have hd1 := py_round_lower 2 d
    have hd2 := py_round_upper 2 d
    have he1 := py_round_lower 2 e
    have he2 := py_round_upper 2 e
    have hf1 := py_round_lower 2 f
    have hf2 := py_round_upper 2 f
    rw [abs_le]
    constructor <;> [skip; skip] <;> norm_num at * <;> linarith

/-! ### List-structure helper lemmas -/

theorem head?_map_general {α β : Type} (f : α → β) (l : List α) :
    (l.map f).head? = l.head?.map f := by
  cases l <;> rfl

theorem numberFrom_length {α : Type} (n : ℕ) (l : List α) :
    (numberFrom n l).length = l.length := by
  induction l generalizing n with
  | nil => rfl
  | cons a t ih => simp [numberFrom, ih]

theorem numberFrom_map_fst {α : Type} (n : ℕ) (l : List α) :
    (numberFrom n l).map Prod.fst = List.range' n l.length := by
  induction l generalizing n with
  | nil => rfl
  | cons a t ih => simp [numberFrom, List.range'_succ, ih]

theorem numberFrom_map_snd {α : Type} (n : ℕ) (l : List α) :
    (numberFrom n l).map Prod.snd = l := by
  induction l generalizing n with
  | nil => rfl
  | cons a t ih => simp [numberFrom, ih]

theorem mem_of_mem_numberFrom {α : Type} {kp : ℕ × α} {n : ℕ} {l : List α}
    (h : kp ∈ numberFrom n l) : kp.2 ∈ l := by
  induction l generalizing n with
  | nil => simp [numberFrom] at h
  | cons a t ih =>
    simp only [numberFrom, List.mem_cons] at h
    rcases h with rfl | h
    · simp
    · exact List.mem_cons_of_mem _ (ih h)

theorem head?_numberFrom_map {α β : Type} (f : ℕ × α → β) (n : ℕ) (l : List α) :
    ((numberFrom n l).map f).head? = l.head?.map fun a => f (n, a) := by
  cases l <;> rfl

theorem arange_head (start stop step : ℚ) (h : 0 < arange_len start stop step) :
    (arange start stop step).head? = some start := by
  unfold arange
  obtain ⟨m, hm⟩ : ∃ m, arange_len start stop step = m + 1 :=
    ⟨arange_len start stop step - 1, by omega⟩
  rw [hm, List.range_succ_eq_map]
  simp

theorem head?_flatMap_eq {α β : Type} (l : List α) (g : α → List β) (a : α) (b : β)
    (h1 : l.head? = some a) (h2 : (g a).head? = some b) :
    (l.flatMap g).head? = some b := by
  rcases l with _ | ⟨x, t⟩
  · simp at h1
  · have hx : x = a := by simpa using h1
    subst hx
    rcases hga : g x with _ | ⟨y, u⟩
    · rw [hga] at h2; simp at h2
    · rw [hga] at h2
      have hy : y = b := by simpa using h2
      subst hy
      rw [List.flatMap_cons, hga]
      rfl

theorem india_candidates_head (coslat : ℚ → ℚ) (res : ℚ)
    (h1 : (india_lats res).head? = some 6)
    (h2 : (india_lons coslat res).head? = some 68) :
    (india_candidates coslat res).head? = some (6, 68) := by
  unfold india_candidates
  apply head?_flatMap_eq _ _ 6 (6, 68) h1
  rw [head?_map_general, h2]
  rfl

theorem create_india_hexagons_head (ctab stab : ℕ → ℚ) (coslat : ℚ → ℚ) (res : ℚ)
    (h1 : (india_lats res).head? = some 6)
    (h2 : (india_lons coslat res).head? = some 68) :
    (create_india_hexagons ctab stab coslat res).head? =
      some (mkHexagon ctab stab coslat 0 6 68 (india_lat_step res)) := by
  unfold create_india_hexagons
  rw [head?_numberFrom_map, india_candidates_head coslat res h1 h2]
  rfl

theorem india_lats_50_head : (india_lats 50).head? = some 6 := by
  unfold india_lats
  apply arange_head
  unfold arange_len india_lat_step
  rw [show ⌈((37 : ℚ) + 50 / 111 - 6) / (50 / 111)⌉ = 70 by
    rw [Int.ceil_eq_iff] <;> norm_num]
  norm_num

theorem india_lons_head_of_pos (coslat : ℚ → ℚ) (hc : 0 < coslat ((6 + 37) / 2)) :
    (india_lons coslat 50).head? = some 68 := by
  unfold india_lons
  apply arange_head
  unfold arange_len
  have hs : 0 < india_lon_step coslat 50 := by
    unfold india_lon_step
    positivity
  set s := india_lon_step coslat 50 with hsdef
  have h1 : (1 : ℚ) < (97 + s - 68) / s := by
    rw [lt_div_iff hs]
    linarith
  have h2 : (1 : ℤ) < ⌈(97 + s - 68) / s⌉ := by
    have := Int.le_ceil ((97 + s - 68) / s)
    exact_mod_cast lt_of_lt_of_le h1 this
  omega

/-- The raw six-vertex list of `create_valid_hexagons` starts with the
angle-0 vertex. -/
theorem fix_hex_raw_head (ctab stab : ℕ → ℚ) (lat lon s : ℚ) :
    (fix_hex_raw ctab stab lat lon s).head? =
      some (lon + s * 0.5 * ctab 0, lat + s * 0.5 * stab 0) := rfl

/-- The raw six-vertex list of `create_valid_hexagons` ends with the
angle-300 vertex. -/
theorem fix_hex_raw_last (ctab stab : ℕ → ℚ) (lat lon s : ℚ) :
    (fix_hex_raw ctab stab lat lon s).getLast? =
      some (lon + s * 0.5 * ctab 5, lat + s * 0.5 * stab 5) := rfl

theorem fix_hex_raw_length (ctab stab : ℕ → ℚ) (lat lon s : ℚ) :
    (fix_hex_raw ctab stab lat lon s).length = 6 := by
  simp [fix_hex_raw]

/-- The ring produced by the closing step always has equal first and last
entries. -/
theorem closeRing_closed (l : List (ℚ × ℚ)) :
    (closeRing l).head? = (closeRing l).getLast? := by
  unfold closeRing
  split_ifs with h
  · exact h
  · rcases l with _ | ⟨a, t⟩
    · simp at h
    · show ((a :: t) ++ [a]).head? = ((a :: t) ++ [a]).getLast?
      rw [List.getLast?_concat]
      rfl

theorem closeRing_length_of_ne (l : List (ℚ × ℚ)) (h : l.head? ≠ l.getLast?) :
    (closeRing l).length = l.length + 1 := by
  unfold closeRing
  rw [if_neg h]
  rcases l with _ | ⟨a, t⟩
  · simp at h
  · simp

/-! ### Claims about the Grid Generator shape and ordering -/

/-- C2 (corrected claim, amended form): the hexagon boundaries produced by
`create_india_hexagons`'s `create_hexagon` have exactly 6 vertices (no
closing vertex), while the rings produced by `fix_hexagons`'s
`create_valid_hexagons` always have first entry equal to last entry and,
whenever the six raw vertices have first ≠ last (true for the real
cosine/sine values), exactly 7 vertices. -/
theorem C2_boundary_shape :
    (∀ (ctab stab : ℕ → ℚ) (coslat : ℚ → ℚ) (lat lon r : ℚ),
      (create_hexagon ctab stab coslat lat lon r).length = 6) ∧
    (∀ (ctab stab : ℕ → ℚ) (lat lon s : ℚ),
      (fix_hex_coords ctab stab lat lon s).head? =
        (fix_hex_coords ctab stab lat lon s).getLast?) ∧
    (∀ (ctab stab : ℕ → ℚ) (lat lon s : ℚ),
      (fix_hex_raw ctab stab lat lon s).head? ≠
          (fix_hex_raw ctab stab lat lon s).getLast? →
        (fix_hex_coords ctab stab lat lon s).length = 7) := by
  refine ⟨fun ctab stab coslat lat lon r => by simp [create_hexagon],
    fun ctab stab lat lon s => closeRing_closed _,
    fun ctab stab lat lon s h => ?_⟩
  unfold fix_hex_coords
  rw [closeRing_length_of_ne _ h, fix_hex_raw_length]

/-- C2 witness: with the real trig values the raw first and last vertices
differ, so the closed ring has exactly 7 vertices. -/
theorem C2_witness : (fix_hex_coords ctab0 stab0 6 68 0.5).length = 7 := by
  apply C2_boundary_shape.2.2 ctab0 stab0 6 68 0.5
  rw [fix_hex_raw_head, fix_hex_raw_last]
  simp only [ctab0, stab0]
  norm_num

/-- C2 counterexample: the first cell produced by `create_india_hexagons`
(with concrete trig tables) has a boundary of 6 vertices, not 7. -/
theorem C2_counterexample :
    ((create_india_hexagons ctab0 stab0 coslat0 50).head?).map
        (fun h => h.boundary.length) = some 6 ∧ (6 : ℕ) ≠ 7 := by
  refine ⟨?_, by norm_num⟩
  rw [create_india_hexagons_head ctab0 stab0 coslat0 50 india_lats_50_head
    (india_lons_head_of_pos coslat0 (by norm_num [coslat0]))]
  simp [mkHexagon, create_hexagon]

/-- C6: re-running the generator with identical trig model, bounding box and
resolution yields an identical ordered sequence of cells (the generator is a
pure function with no randomness). -/
theorem C6_generator_deterministic (ctab stab ctab' stab' : ℕ → ℚ)
    (coslat coslat' : ℚ → ℚ) (res res' : ℚ)
    (h1 : ctab = ctab') (h2 : stab = stab') (h3 : coslat = coslat')
    (h4 : res = res') :
    create_india_hexagons ctab stab coslat res =
      create_india_hexagons ctab' stab' coslat' res' := by
  subst h1; subst h2; subst h3; subst h4; rfl

/-- C6 witness: two identical runs at resolution 50. -/
theorem C6_witness :
    create_india_hexagons ctab0 stab0 coslat0 50 =
      create_india_hexagons ctab0 stab0 coslat0 50 :=
  C6_generator_deterministic ctab0 stab0 ctab0 stab0 coslat0 coslat0 50 50
    rfl rfl rfl rfl

/-- C9: within one generation run ids are exactly `0, 1, 2, ...` in the
row-major enumeration order of grid candidates (latitude outer loop,
longitude inner loop): the id list equals `range`, is duplicate-free, and
the k-th cell's center is the k-th row-major candidate. -/
theorem C9_ids_sequential (ctab stab : ℕ → ℚ) (coslat : ℚ → ℚ) (res : ℚ) :
    (create_india_hexagons ctab stab coslat res).map (fun h => h.hex_id) =
      List.range (create_india_hexagons ctab stab coslat res).length ∧
    ((create_india_hexagons ctab stab coslat res).map (fun h => h.hex_id)).Nodup ∧
    (create_india_hexagons ctab stab coslat res).map
        (fun h => (h.center_lat, h.center_lon)) = india_candidates coslat res := by
  have hfst : (create_india_hexagons ctab stab coslat res).map (fun h => h.hex_id) =
      (numberFrom 0 (india_candidates coslat res)).map Prod.fst := by
    unfold create_india_hexagons
    rw [List.map_map]
    rfl
  have hlen : (create_india_hexagons ctab stab coslat res).length =
      (india_candidates coslat res).length := by
    unfold create_india_hexagons
    rw [List.length_map, numberFrom_length]
  refine ⟨?_, ?_, ?_⟩
  · rw [hfst, numberFrom_map_fst, hlen, List.range_eq_range']
  · rw [hfst, numberFrom_map_fst]
    exact List.nodup_range' _ _
  · unfold create_india_hexagons
    rw [List.map_map]
    have : ((fun h : Hexagon => (h.center_lat, h.center_lon)) ∘
        fun kp : ℕ × (ℚ × ℚ) =>
          mkHexagon ctab stab coslat kp.1 kp.2.1 kp.2.2 (india_lat_step res)) =
        Prod.snd := by
      funext kp
      rfl
    rw [this]
    exact numberFrom_map_snd 0 _

/-! ### Validation behaviour (C4) and the first generated cell (C5) -/

theorem create_valid_hexagons_from_acc (isValid : List (ℚ × ℚ) → Bool)
    (ctab stab : ℕ → ℚ) :
    ∀ (cands : List (ℚ × ℚ)) (acc : List FixFeature × ℕ),
      (∀ f ∈ acc.1, isValid f.coordinates = true) →
      ∀ f ∈ (cands.foldl
        (fun (acc : List FixFeature × ℕ) p =>
          let hex_coords := fix_hex_coords ctab stab p.1 p.2 0.5
          if isValid hex_coords then
            (acc.1 ++ [{ fid := "hex_" ++ toString acc.2, lat := p.1, lon := p.2,
                         hex_size := 0.5, coordinates := hex_coords }], acc.2 + 1)
          else acc) acc).1, isValid f.coordinates = true := by
  intro cands
  induction cands with
  | nil => exact fun acc hacc f hf => hacc f hf
  | cons p t ih =>
    intro acc hacc f hf
    simp only [List.foldl_cons] at hf
    refine ih _ ?_ f hf
    intro g hg
    by_cases hv : isValid (fix_hex_coords ctab stab p.1 p.2 0.5) = true
    · rw [if_pos hv] at hg
      rcases List.mem_append.mp hg with h | h
      · exact hacc g h
      · rw [List.mem_singleton.mp h]
        exact hv
    · rw [if_neg hv] at hg
      exact hacc g hg

/-- C4 (corrected claim, amended form): only `fix_hexagons`'
`create_valid_hexagons` validates polygons — every feature it keeps (over
any candidate list) satisfies the validity predicate, invalid candidates are
skipped without error.  `create_india_hexagons` performs no validation at
all: it emits exactly one cell per grid candidate, unconditionally. -/
theorem C4_validation :
    (∀ (cands : List (ℚ × ℚ)) (isValid : List (ℚ × ℚ) → Bool)
      (ctab stab : ℕ → ℚ) (f : FixFeature),
      f ∈ create_valid_hexagons_from cands isValid ctab stab →
        isValid f.coordinates = true) ∧
    (∀ (isValid : List (ℚ × ℚ) → Bool) (ctab stab : ℕ → ℚ),
      (create_valid_hexagons isValid ctab stab).all
        (fun f => isValid f.coordinates) = true) ∧
    (∀ (ctab stab : ℕ → ℚ) (coslat : ℚ → ℚ) (res : ℚ),
      (create_india_hexagons ctab stab coslat res).length =
        (india_lats res).length * (india_lons coslat res).length) := by
  have key : ∀ (cands : List (ℚ × ℚ)) (isValid : List (ℚ × ℚ) → Bool)
      (ctab stab : ℕ → ℚ) (f : FixFeature),
      f ∈ create_valid_hexagons_from cands isValid ctab stab →
        isValid f.coordinates = true := by
    intro cands isValid ctab stab f hf
    unfold create_valid_hexagons_from at hf
    exact create_valid_hexagons_from_acc isValid ctab stab cands ([], 0)
      (by simp) f hf
  refine ⟨key, ?_, ?_⟩
  · intro isValid ctab stab
    rw [List.all_eq_true]
    exact fun f hf => key fix_candidates isValid ctab stab f hf
  · intro ctab stab coslat res
    unfold create_india_hexagons
    rw [List.length_map, numberFrom_length]
    unfold india_candidates
    rw [List.length_flatMap]
    induction india_lats res with
    | nil => simp
    | cons a t ih =>
      simp only [List.map_cons, List.sum_cons, List.length_cons, Function.comp_apply,
        List.length_map, ih, Nat.succ_mul]
      ring

/-- C4 witness: on the single candidate (6, 68) with a validity predicate,
the kept feature satisfies the predicate. -/
theorem C4_witness : c4_valid c4_feature.coordinates = true := by
  apply C4_validation.1 [(6, 68)] c4_valid ctab0 stab0 c4_feature
  have h : create_valid_hexagons_from [(6, 68)] c4_valid ctab0 stab0 =
      [c4_feature] := rfl
  rw [h]
  exact List.mem_singleton_self _

/-- C4 counterexample: with a degenerate trig model, the first cell of
`create_india_hexagons` has all six boundary vertices identical (a zero-area,
invalid polygon), yet it is emitted — no validation or discarding happens. -/
theorem C4_counterexample :
    ((create_india_hexagons ctab1 stab1 coslat1 50).head?).map (fun h => h.boundary) =
      some (List.replicate 6 ((68 : ℚ) + 25/111, (6 : ℚ) + 25/111)) ∧
    ¬ (List.replicate 6 ((68 : ℚ) + 25/111, (6 : ℚ) + 25/111)).Nodup := by
  constructor
  · rw [create_india_hexagons_head ctab1 stab1 coslat1 50 india_lats_50_head
      (india_lons_head_of_pos coslat1 (by norm_num [coslat1]))]
    simp only [Option.map_some', mkHexagon, create_hexagon, ctab1, stab1, coslat1,
      india_lat_step]
    norm_num [List.map_const']
  · simp [List.nodup_replicate]

/-- The wind potential of the point (6, 68): its coastal distance is exactly
2 degrees (from the southern-tip reference latitude 8.0), so the 5.5 band
applies and no monsoon/terrain factor triggers. -/
theorem wind_at_6_68 : calculate_wind_potential 6 68 = 5.5 := by
  have h : calculate_wind_potential 6 68 = py_round 2 5.5 := by
    norm_num [calculate_wind_potential, min_def]
  rw [h, py_round_eval_lo 2 5.5 550 (by norm_num) (by norm_num)]
  norm_num

/-- C5 (corrected claim, amended form): at resolution 50 km the latitude
step 50/111 is within 1e-4 of 0.4505; the first generated cell's center is
(6.0, 68.0); and that cell's `wind_potential` is
`round(5.5 * 1.0 * 1.0, 2) = 5.5` — not 4.0 — because (6, 68) is exactly
2 degrees from the reference latitude 8.0, inside the `< 5` coastal band. -/
theorem C5_first_cell :
    |india_lat_step 50 - 0.4505| < 0.0001 ∧
    (∀ (ctab stab : ℕ → ℚ) (coslat : ℚ → ℚ), 0 < coslat ((6 + 37) / 2) →
      ((create_india_hexagons ctab stab coslat 50).head?).map
          (fun h => (h.center_lat, h.center_lon, h.wind_potential)) =
        some (6, 68, 5.5)) := by
  constructor
  · rw [show india_lat_step 50 - 0.4505 = -(11/222000 : ℚ) by
      norm_num [india_lat_step], abs_neg, abs_of_pos (by norm_num)]
    norm_num
  · intro ctab stab coslat hc
    rw [create_india_hexagons_head ctab stab coslat 50 india_lats_50_head
      (india_lons_head_of_pos coslat hc)]
    simp [mkHexagon, wind_at_6_68]

/-- C5 witness: concrete trig model instantiation. -/
theorem C5_witness :
    ((create_india_hexagons ctab0 stab0 coslat0 50).head?).map
        (fun h => (h.center_lat, h.center_lon, h.wind_potential)) =
      some (6, 68, 5.5) :=
  C5_first_cell.2 ctab0 stab0 coslat0 (by norm_num [coslat0])

/-- C5 counterexample: the first cell's `wind_potential` is 5.5, not the
claimed `round(4.0 * 1.0 * 1.0, 2) = 4.0`. -/
theorem C5_counterexample :
    ((create_india_hexagons ctab0 stab0 coslat0 50).head?).map
        (fun h => h.wind_potential) = some 5.5 ∧
    some (5.5 : ℚ) ≠ some (4 : ℚ) := by
  constructor
  · rw [create_india_hexagons_head ctab0 stab0 coslat0 50 india_lats_50_head
      (india_lons_head_of_pos coslat0 (by norm_num [coslat0]))]
    simp [mkHexagon, wind_at_6_68]
  · intro h
    rw [Option.some_inj] at h
    norm_num at h

/-! ### Attribute and cost bounds (C3) -/

theorem wind_potential_bounds (lat lon : ℚ) :
    3.9 ≤ calculate_wind_potential lat lon ∧ calculate_wind_potential lat lon ≤ 8.6 := by
  simp only [calculate_wind_potential]
  split_ifs <;> exact py_round2_bounds _ 3.9 8.6 (by norm_num) (by norm_num)

theorem solar_potential_bounds (lat lon : ℚ) (h6 : 6 ≤ lat) (h38 : lat ≤ 38) :
    3.79 ≤ calculate_solar_potential lat lon ∧
      calculate_solar_potential lat lon ≤ 7.29 := by
  simp only [calculate_solar_potential]
  split_ifs
  · -- northwest distance < 5 deg, climate factor applies: base 6.2
    have hc : (lat - 28) ^ 2 < 25 := by nlinarith [sq_nonneg (lon - 75)]
    have hl : 23 < lat := by nlinarith [sq_nonneg (lat - 23)]
    have hr : lat < 33 := by nlinarith [sq_nonneg (lat - 33)]
    exact py_round2_bounds _ 3.79 7.29 (by linarith) (by linarith)
  · -- distance < 5 but not < 8: impossible
    exfalso; linarith
  · -- 5 ≤ distance < 10, climate factor applies: base 5.8
    have hc : (lat - 28) ^ 2 < 100 := by nlinarith [sq_nonneg (lon - 75)]
    have hl : 18 < lat := by nlinarith [sq_nonneg (lat - 18)]
    have hr : lat < 38 := by nlinarith [sq_nonneg (lat - 38)]
    exact py_round2_bounds _ 3.79 7.29 (by linarith) (by linarith)
  · -- 5 ≤ distance < 10, no climate factor
    have hc : (lat - 28) ^ 2 < 100 := by nlinarith [sq_nonneg (lon - 75)]
    have hl : 18 < lat := by nlinarith [sq_nonneg (lat - 18)]
    have hr : lat < 38 := by nlinarith [sq_nonneg (lat - 38)]
    exact py_round2_bounds _ 3.79 7.29 (by linarith) (by linarith)
  · -- distance ≥ 10 but < 8: impossible
    exfalso; linarith
  · -- distance ≥ 10: base 5.2, latitude factor bounded by the grid band
    exact py_round2_bounds _ 3.79 7.29 (by linarith) (by linarith)

theorem foldl_nonneg {α : Type} (φ : ℚ → α → ℚ) (hp : ∀ m c, 0 ≤ m → 0 ≤ φ m c) :
    ∀ (l : List α) (a : ℚ), 0 ≤ a → 0 ≤ l.foldl φ a := by
  intro l
  induction l with
  | nil => exact fun a ha => ha
  | cons x t ih =>
    intro a ha
    rw [List.foldl_cons]
    exact ih (φ a x) (hp a x ha)

theorem transport_cost_nonneg (sqrtf : ℚ → ℚ) (hsq : ∀ q, 0 ≤ sqrtf q)
    (lat lon : ℚ) : 0 ≤ calculate_transport_cost sqrtf lat lon := by
  have h : 0 ≤ demand_centers.foldl
      (fun m c => min m (sqrtf ((lat - c.1) ^ 2 + (lon - c.2) ^ 2) * 111))
      float_inf :=
    foldl_nonneg _ (fun m c hm => le_min hm (mul_nonneg (hsq _) (by norm_num)))
      demand_centers float_inf (by norm_num [float_inf])
  simp only [calculate_transport_cost]
  exact mul_nonneg (div_nonneg h (by norm_num)) (by norm_num)

theorem wind_cost_ge (w e : ℚ) (he : 0 ≤ e) :
    900/7 ≤ calculate_wind_energy_cost w e := by
  simp only [calculate_wind_energy_cost]
  have hf : (1:ℚ) ≤ 1 + e / 1000 * 0.1 := by
    have h0 : (0:ℚ) ≤ e / 1000 * 0.1 := by positivity
    linarith
  split_ifs <;> nlinarith

theorem solar_cost_ge (s : ℚ) : 1750/11 ≤ calculate_solar_energy_cost s := by
  simp only [calculate_solar_energy_cost]
  split_ifs <;> norm_num

theorem water_cost_ge (wa : String) : 1/2 ≤ calculate_water_cost wa := by
  unfold calculate_water_cost
  split_ifs <;> norm_num

theorem infra_cost_ge (i : ℚ) : 3/10 ≤ calculate_infrastructure_cost i := by
  unfold calculate_infrastructure_cost
  split_ifs <;> norm_num

theorem elevation_nonneg (lat lon : ℚ) : 0 ≤ get_elevation_estimate lat lon := by
  unfold get_elevation_estimate
  split_ifs <;> norm_num

theorem suitability_bounds (lcoh w s : ℚ) (hl : 6 < lcoh)
    (hw : 3.9 ≤ w ∧ w ≤ 8.6) (hs : 3.79 ≤ s ∧ s ≤ 7.29) :
    0 ≤ calculate_suitability_score lcoh w s ∧
      calculate_suitability_score lcoh w s ≤ 100 := by
  obtain ⟨hw1, hw2⟩ := hw
  obtain ⟨hs1, hs2⟩ := hs
  simp only [calculate_suitability_score]
  rw [if_neg (by linarith), if_neg (by linarith), if_neg (by linarith),
    if_neg (by linarith),
    show (40:ℚ) * 0.6 + (w / 7 + s / 6.5) * 50 * 0.4 =
      24 + w * (20/7) + s * (40/13) by ring]
  exact py_round1_bounds _ 0 100 (by linarith) (by linarith)

theorem india_lats_50_bounds : ∀ la ∈ india_lats 50, 6 ≤ la ∧ la ≤ 38 := by
  intro la hla
  unfold india_lats arange at hla
  rcases List.mem_map.mp hla with ⟨k, hk, rfl⟩
  rw [List.mem_range] at hk
  have hlen : arange_len 6 (37 + india_lat_step 50) (india_lat_step 50) = 70 := by
    unfold arange_len india_lat_step
    rw [show ⌈((37:ℚ) + 50 / 111 - 6) / (50 / 111)⌉ = 70 by
      rw [Int.ceil_eq_iff]
      norm_num]
    rfl
  rw [hlen] at hk
  have hk69 : (k : ℚ) ≤ 69 := by exact_mod_cast Nat.lt_succ_iff.mp hk
  have hk0 : (0 : ℚ) ≤ (k : ℚ) := Nat.cast_nonneg k
  unfold india_lat_step
  constructor <;> nlinarith

/-- C3: for every cell produced by the Grid Generator at the resolution the
program runs (50 km), scoring the cell's attributes (its generated
`wind_potential`, `solar_potential` and the `total_lcoh` computed from them)
yields a `suitability_score` in [0, 100], for any nonnegative model of
`np.sqrt`. -/
theorem C3_suitability_in_range (ctab stab : ℕ → ℚ) (coslat : ℚ → ℚ)
    (sqrtf : ℚ → ℚ) (hsq : ∀ q, 0 ≤ sqrtf q) (hex : Hexagon)
    (hmem : hex ∈ create_india_hexagons ctab stab coslat 50) :
    0 ≤ (calculate_lcoh_for_hexagon sqrtf (hex_props hex)).suitability_score ∧
      (calculate_lcoh_for_hexagon sqrtf (hex_props hex)).suitability_score ≤ 100 := by
  unfold create_india_hexagons at hmem
  rcases List.mem_map.mp hmem with ⟨kp, hkp, rfl⟩
  have hp : kp.2 ∈ india_candidates coslat 50 := mem_of_mem_numberFrom hkp
  unfold india_candidates at hp
  rcases List.mem_flatMap.mp hp with ⟨la, hla, hlo⟩
  rcases List.mem_map.mp hlo with ⟨lo, _hlo2, hpair⟩
  obtain ⟨h6, h38⟩ := india_lats_50_bounds la hla
  rw [← hpair]
  have hscore :
      (calculate_lcoh_for_hexagon sqrtf (hex_props
        (mkHexagon ctab stab coslat kp.1 la lo (india_lat_step 50)))).suitability_score =
      calculate_suitability_score
        (calculate_wind_energy_cost (calculate_wind_potential la lo)
            (get_elevation_estimate la lo) * 0.4 +
          calculate_solar_energy_cost (calculate_solar_potential la lo) * 0.6 +
          calculate_water_cost (calculate_water_availability la lo) +
          calculate_infrastructure_cost (calculate_infrastructure_score la lo) +
          calculate_electrolyzer_cost +
          calculate_transport_cost sqrtf la lo)
        (calculate_wind_potential la lo) (calculate_solar_potential la lo) := rfl
  rw [hscore]
  apply suitability_bounds
  · have hwc := wind_cost_ge (calculate_wind_potential la lo)
      (get_elevation_estimate la lo) (elevation_nonneg la lo)
    have hsc := solar_cost_ge (calculate_solar_potential la lo)
    have hwa := water_cost_ge (calculate_water_availability la lo)
    have hic := infra_cost_ge (calculate_infrastructure_score la lo)
    have htc := transport_cost_nonneg sqrtf hsq la lo
    have hel : calculate_electrolyzer_cost = 1.2 := rfl
    linarith
  · exact wind_potential_bounds la lo
  · exact solar_potential_bounds la lo h6 h38

/-- C3 witness: the first generated cell at concrete trig/sqrt models. -/
theorem C3_witness :
    0 ≤ (calculate_lcoh_for_hexagon sqrt0 (hex_props
        (mkHexagon ctab0 stab0 coslat0 0 6 68 (india_lat_step 50)))).suitability_score ∧
      (calculate_lcoh_for_hexagon sqrt0 (hex_props
        (mkHexagon ctab0 stab0 coslat0 0 6 68 (india_lat_step 50)))).suitability_score ≤ 100 := by
  apply C3_suitability_in_range ctab0 stab0 coslat0 sqrt0 (fun q => le_refl 0)
  apply List.mem_of_mem_head?
  rw [create_india_hexagons_head ctab0 stab0 coslat0 50 india_lats_50_head
    (india_lons_head_of_pos coslat0 (by norm_num [coslat0]))]
  rfl

end GreenHydro
